import Mathlib

/-!
Shallow embedding of the credential-resolution logic of
`src/upload_meetings.py` and `src/verify_token.py`.

Both scripts are sequential orchestration of external processes.  We model a
run as a function from an abstract `UploadState` / `VerifyState` — capturing
the external world the script observes (CLI session state, token file
presence/content, environment variable, results of external commands) — to a
list of observable events (reads of the two secret sources, login attempts,
printed messages, spawned commands, process exit).

Model assumptions, stated once: `gh` and `git` are installed (the
`check_command_exists` calls pass), the script is invoked without the
`--content` argument, and the token-file path constant stands for
`os.path.join(SCRIPT_DIR, "github_token.txt")` with the directory elided.
-/

/-- Python whitespace characters recognised by `str.strip()` (ASCII subset). -/
def isPySpace (c : Char) : Bool :=
  c = ' ' || c = '\t' || c = '\n' || c = '\r' || c = '\x0b' || c = '\x0c'

/-- Model of Python `s.strip()`: drop leading and trailing whitespace. -/
def pyStrip (s : String) : String :=
  ⟨((s.data.dropWhile isPySpace).reverse.dropWhile isPySpace).reverse⟩

/-- Model of Python `s[-4:]`: the last four characters (the whole string when
shorter). -/
def last4 (s : String) : String :=
  ⟨(s.data.reverse.take 4).reverse⟩

/-- The first line of a string (text before the first newline). -/
def firstLine (s : String) : String :=
  ⟨s.data.takeWhile (fun c => !(c = '\n'))⟩

/-- Contiguous-sublist test on character lists. -/
def listInfixOf (needle : List Char) : List Char → Bool
  | [] => needle.isEmpty
  | c :: t => needle.isPrefixOf (c :: t) || listInfixOf needle t

/-- Substring test: `needle` occurs contiguously inside `hay`. -/
def containsStr (needle hay : String) : Bool :=
  listInfixOf needle.data hay.data

/-- Python truthiness of the `token` variable (`None` and `""` are falsy). -/
def truthy : Option String → Bool
  | none => false
  | some s => !(s == "")

/-- Spec data model: where a credential came from. -/
inductive Source where
  | token_file
  | environment_variable
  | cli_session
  | noSource
  deriving Repr, DecidableEq

/-- Spec data model: an opaque secret with its provenance. -/
structure Credential where
  source : Source
  value : Option String
  deriving Repr, DecidableEq

/-- Spec data model: result of credential resolution. -/
structure AuthOutcome where
  authenticated : Bool
  credential : Credential
  deriving Repr, DecidableEq

/-- Observable events of a run. -/
inductive Event where
  /-- `gh auth status` is consulted. -/
  | checkGhAuth
  /-- the token file is opened and read (an attempt, successful or not). -/
  | readTokenFile
  /-- `os.environ.get("GITHUB_TOKEN")` is consulted. -/
  | readEnv
  /-- `gh auth login --with-token` is run with the given stdin. -/
  | login (stdin : String)
  /-- a line is printed. -/
  | print (msg : String)
  /-- the process terminates with this exit status. -/
  | exited (code : Nat)
  /-- some other external command is spawned. -/
  | run (cmd : String)
  deriving Repr, DecidableEq

/-- The fixed relative token-file path (directory component elided). -/
def TOKEN_FILE : String := "github_token.txt"

def REPO_OWNER : String := "soberlevi"

def FULL_REPO : String := "soberlevi/claude-code"

/-- External world as observed by one run of `upload_meetings.py`. -/
structure UploadState where
  /-- `gh auth status` exits 0 (an authenticated CLI session exists). -/
  ghAuthOk : Bool
  /-- `none`: `github_token.txt` is absent; `some c`: present with raw content `c`. -/
  tokenFile : Option String
  /-- opening/reading the token file succeeds. -/
  tokenFileReadOk : Bool
  /-- text of the exception raised when the read fails. -/
  readErrMsg : String
  /-- the `GITHUB_TOKEN` environment variable (`none` = unset). -/
  githubToken : Option String
  /-- whether `gh auth login --with-token` succeeds for a given stdin. -/
  loginOk : String → Bool
  /-- `.git` directory already exists. -/
  gitDirExists : Bool
  /-- `gh repo view` exits 0. -/
  repoExists : Bool
  /-- `git remote` output lists `origin`. -/
  remoteHasOrigin : Bool
  /-- `git pull` exits 0. -/
  pullOk : Bool
  /-- stderr captured from `git pull`. -/
  pullStderr : String
  /-- stdout captured from `git pull`. -/
  pullStdout : String
  /-- `git diff-index --quiet HEAD --` exits 0 (nothing to commit). -/
  noChanges : Bool
  /-- timestamp string used in the commit message. -/
  timestamp : String
  /-- `git push` exits 0. -/
  pushOk : Bool
  /-- stderr captured from a failed `git push`. -/
  pushStderr : String

/-- Result of the login-resolution block (`upload_meetings.py` lines 67-107):
either the process exited, or it continues with an `AuthOutcome` whose
credential value is the Python `token` variable at line 109. -/
inductive ResolveResult where
  | exited (code : Nat)
  | ok (outcome : AuthOutcome)
  deriving Repr, DecidableEq

/-- Lines 67-107 of `upload_meetings.py`: check `gh auth status`; if not
authenticated, try the token file, else the environment variable, else fail. -/
def resolve (st : UploadState) : List Event × ResolveResult :=
  let pre := [Event.print "Checking GitHub authentication status...", Event.checkGhAuth]
  if st.ghAuthOk then
    (pre, .ok ⟨true, ⟨.cli_session, none⟩⟩)
  else
    let pre := pre ++ [Event.print "Not logged in to GitHub CLI."]
    match st.tokenFile with
    | some content =>
      let pre := pre ++
        [Event.print ("Found " ++ TOKEN_FILE ++ ", attempting to login...")]
      if st.tokenFileReadOk then
        let tok := pyStrip content
        let pre := pre ++ [Event.readTokenFile, Event.login tok]
        if st.loginOk tok then
          (pre ++ [Event.print "Successfully logged in with token."],
           .ok ⟨true, ⟨.token_file, some tok⟩⟩)
        else
          (pre ++ [Event.print ("Failed to login with token from " ++ TOKEN_FILE ++ "."),
                   Event.exited 1], .exited 1)
      else
        (pre ++ [Event.readTokenFile,
                 Event.print ("Error reading token file: " ++ st.readErrMsg),
                 Event.exited 1], .exited 1)
    | none =>
      let pre := pre ++ [Event.readEnv]
      if truthy st.githubToken then
        let tok := st.githubToken.getD ""
        let pre := pre ++
          [Event.print "Found GITHUB_TOKEN environment variable, attempting to login...",
           Event.readEnv, Event.login tok]
        if st.loginOk tok then
          (pre ++ [Event.print "Successfully logged in with token."],
           .ok ⟨true, ⟨.environment_variable, some tok⟩⟩)
        else
          (pre ++ [Event.print "Failed to login with GITHUB_TOKEN.", Event.exited 1],
           .exited 1)
      else
        (pre ++
          [Event.print ("Error: Please login using \x27gh auth login\x27 or create a \x27" ++
             TOKEN_FILE ++ "\x27 file with your Personal Access Token."),
           Event.print "Note: GitHub no longer supports password authentication for CLI. You must use a token.",
           Event.print "Generate one at: https://github.com/settings/tokens",
           Event.exited 1], .exited 1)

/-- Lines 110-115 of `upload_meetings.py`: the first best-effort statement.
The file is re-read only when the Python `token` variable `tok0` is falsy,
and a read failure is swallowed (`except: pass`), leaving `tok0` unchanged. -/
def bestEffortFile (tok0 : Option String) (st : UploadState) : List Event × Option String :=
  if truthy tok0 then (([] : List Event), tok0)
  else
    match st.tokenFile with
    | some c =>
      if st.tokenFileReadOk then ([Event.readTokenFile], some (pyStrip c))
      else ([Event.readTokenFile], tok0)
    | none => ([], tok0)

/-- Lines 117-118 of `upload_meetings.py`: the second best-effort statement.
The environment variable is consulted only when the value is still falsy. -/
def bestEffortEnv (p : List Event × Option String) (st : UploadState) :
    List Event × Option String :=
  if truthy p.2 then p
  else
    if truthy st.githubToken then (p.1 ++ [Event.readEnv, Event.readEnv], st.githubToken)
    else (p.1 ++ [Event.readEnv], p.2)

/-- Lines 109-118 of `upload_meetings.py`: best-effort secret retrieval. -/
def bestEffort (tok0 : Option String) (st : UploadState) : List Event × Option String :=
  bestEffortEnv (bestEffortFile tok0 st) st

/-- The authenticated URL built at line 124. -/
def mkAuthUrl (tok : String) : String :=
  "https://" ++ REPO_OWNER ++ ":" ++ tok ++ "@github.com/" ++ FULL_REPO ++ ".git"

/-- Lines 120-127 of `upload_meetings.py`: build the authenticated URL and
print the token's last four characters, or warn that no token was found. -/
def urlSection (tok : Option String) : List Event × Option String :=
  if truthy tok then
    let t := tok.getD ""
    ([Event.print ("Using authenticated URL with token ending in ..." ++ last4 t)],
     some (mkAuthUrl t))
  else
    ([Event.print "Warning: Could not retrieve raw token. Git operations may prompt for credentials."],
     none)

def pullCmd (authUrl : Option String) : String :=
  match authUrl with
  | some u => "git pull " ++ u ++ " main --allow-unrelated-histories --no-edit --no-rebase"
  | none => "git pull origin main --allow-unrelated-histories --no-edit --no-rebase"

def pushCmd (authUrl : Option String) : String :=
  match authUrl with
  | some u => "git push -u " ++ u ++ " main"
  | none => "git push -u origin main"

/-- Lines 129-221 of `upload_meetings.py`: git initialisation, repository
check, pull, add, commit, push (the `.gitignore` maintenance has no
observable events in this model). -/
def restOfMain (st : UploadState) (authUrl : Option String) : List Event :=
  (if st.gitDirExists then []
   else [Event.print "Initializing git repository...",
         Event.run "git init", Event.run "git branch -M main"]) ++
  [Event.print ("Checking if repository " ++ FULL_REPO ++ " exists..."),
   Event.run ("gh repo view " ++ FULL_REPO)] ++
  (if st.repoExists then
     [Event.print "Repository exists.", Event.run "git remote"] ++
     (if st.remoteHasOrigin then
        [Event.run ("git remote set-url origin https://github.com/" ++ FULL_REPO ++ ".git")]
      else
        [Event.print "Adding remote origin...",
         Event.run ("git remote add origin https://github.com/" ++ FULL_REPO ++ ".git")])
   else
     [Event.print "Repository does not exist. Creating it...",
      Event.run ("gh repo create " ++ FULL_REPO ++ " --private --source=. --remote=origin")]) ++
  [Event.run "git config --local credential.helper \x27\x27",
   Event.print "Pulling latest changes...",
   Event.run (pullCmd authUrl)] ++
  (if st.pullOk then [Event.print "Pull completed (success or no changes)."]
   else [Event.print ("Pull warning/error: " ++ st.pullStderr),
         Event.print ("Pull stdout: " ++ st.pullStdout)]) ++
  [Event.print "Adding files...",
   Event.run "git add .",
   Event.run "git diff-index --quiet HEAD --"] ++
  (if st.noChanges then [Event.print "No changes to commit.", Event.exited 0]
   else
     [Event.print "Committing changes...",
      Event.run ("git commit -m \"Update meeting content: " ++ st.timestamp ++ "\""),
      Event.print "Pushing to GitHub...",
      Event.run (pushCmd authUrl)] ++
     (if st.pushOk then
        [Event.print "Done!",
         Event.print ("Successfully uploaded files to: https://github.com/" ++ FULL_REPO ++ "/blob/main/"),
         Event.print "Check the repository for the latest files."]
      else
        [Event.print ("Error pushing to GitHub: " ++ st.pushStderr), Event.exited 1]))

/-- The whole run of `upload_meetings.py`'s `main` (without `--content`). -/
def mainTrace (st : UploadState) : List Event :=
  let (ev1, r) := resolve st
  match r with
  | .exited _ => ev1
  | .ok oc =>
    let (ev2, tok) := bestEffort oc.credential.value st
    let (ev3, authUrl) := urlSection tok
    ev1 ++ ev2 ++ ev3 ++ restOfMain st authUrl

/-- The printed lines of a trace. -/
def printsOf (evs : List Event) : List String :=
  evs.filterMap fun e =>
    match e with
    | .print s => some s
    | _ => none

/-- The login attempts of a trace (each element is the stdin passed). -/
def loginsOf (evs : List Event) : List String :=
  evs.filterMap fun e =>
    match e with
    | .login s => some s
    | _ => none

/-- The token used to build the authenticated URL, for runs that reach the
URL-construction section (`none` = the run exited during resolution). -/
def resolvedUrlToken (st : UploadState) : Option (Option String) :=
  match (resolve st).2 with
  | .exited _ => none
  | .ok oc => some (bestEffort oc.credential.value st).2

/-- Truthiness-normalisation of the Python `token` variable: `some ""` and
`none` behave identically afterwards. -/
def normalizeTok (t : Option String) : Option String :=
  if truthy t then t else none

/-- The best-effort retrieval result as the spec describes it: the token-file
value when the file is present, readable and trims non-empty; otherwise the
environment variable when set and non-empty; otherwise none. -/
def bestEffortSpec (st : UploadState) : Option String :=
  match st.tokenFile with
  | some c =>
    if st.tokenFileReadOk && !(pyStrip c == "") then some (pyStrip c)
    else if truthy st.githubToken then st.githubToken else none
  | none =>
    if truthy st.githubToken then st.githubToken else none

/-- Model of Python `s.startswith(p)`. -/
def startsWithStr (p s : String) : Bool :=
  p.data.isPrefixOf s.data

/-- Parsed JSON body of the user-identity response, as `verify_token.py`
inspects it: whether `"login"` is a key (and its value), and the raw body
echoed on authentication failure. -/
structure RespUser where
  login : Option String
  raw : String
  deriving Repr, DecidableEq

/-- Parsed JSON body of the repository-metadata response: the pretty-printed
`"permissions"` object if present, else the `"message"` field if present. -/
structure RespRepo where
  permissions : Option String
  message : Option String
  deriving Repr, DecidableEq

/-- External world as observed by one run of `verify_token.py`.  An
`Except.error e` check result models an exception (curl failure, JSON decode
error) raised inside that check's `try` block, with `e` the exception text. -/
structure VerifyState where
  /-- `none`: `github_token.txt` is absent; `some c`: present with raw content `c`. -/
  tokenFile : Option String
  /-- opening/reading the token file succeeds (a failure is uncaught here). -/
  tokenFileReadOk : Bool
  /-- the `GITHUB_TOKEN` environment variable (`none` = unset). -/
  githubToken : Option String
  /-- header lines of the HEAD request matching the scope filter. -/
  scopeLines : List String
  /-- outcome of the user-identity check's network/parse phase. -/
  userCheck : Except String RespUser
  /-- outcome of the repository-metadata check's network/parse phase. -/
  repoCheck : Except String RespRepo

/-- Lines 14-19 of `verify_token.py`: the token lookup.  `none` means the run
was terminated by an uncaught read exception; `some t` is the Python `token`
variable afterwards. -/
def verifyLookup (st : VerifyState) : List Event × Option (Option String) :=
  match st.tokenFile with
  | some c =>
    if st.tokenFileReadOk then ([Event.readTokenFile], some (some (pyStrip c)))
    else ([Event.readTokenFile, Event.exited 1], none)
  | none =>
    if truthy st.githubToken then ([Event.readEnv, Event.readEnv], some st.githubToken)
    else ([Event.readEnv], some none)

/-- Lines 26-31 of `verify_token.py`: classify the token by its prefix. -/
def tokenTypeMsg (t : String) : String :=
  if startsWithStr "github_pat_" t then "Type: Fine-grained Personal Access Token"
  else if startsWithStr "ghp_" t then "Type: Classic Personal Access Token"
  else "Type: Unknown format"

/-- Lines 33-61 of `verify_token.py`: the user-identity check.  The returned
flag records whether the process exited (explicit authentication failure). -/
def userCheckTrace (st : VerifyState) (tok : String) : List Event × Bool :=
  let pre := [Event.print "\n--- Checking User Identity ---",
    Event.run ("curl -s -I -H \"Authorization: token " ++ tok ++ "\" https://api.github.com/user")]
  match st.userCheck with
  | .error e => (pre ++ [Event.print ("Error checking user: " ++ e)], false)
  | .ok d =>
    let pre := pre ++ [Event.print "Headers check:"] ++ st.scopeLines.map Event.print ++
      [Event.run ("curl -s -H \"Authorization: token " ++ tok ++ "\" https://api.github.com/user")]
    match d.login with
    | some l => (pre ++ [Event.print ("Authenticated as: " ++ l)], false)
    | none =>
      (pre ++ [Event.print "Authentication Failed!",
               Event.print ("Response: " ++ d.raw), Event.exited 1], true)

/-- Lines 63-79 of `verify_token.py`: the repository-metadata check. -/
def repoCheckTrace (st : VerifyState) (tok : String) : List Event :=
  let pre := [Event.print ("\n--- Checking Permissions for " ++ FULL_REPO ++ " ---"),
    Event.run ("curl -s -H \"Authorization: token " ++ tok ++
      "\" https://api.github.com/repos/" ++ FULL_REPO)]
  match st.repoCheck with
  | .error e => pre ++ [Event.print ("Error checking repo: " ++ e)]
  | .ok d =>
    match d.permissions with
    | some p =>
      pre ++ [Event.print ("API Reported User Permissions (may not match Token): " ++ p)]
    | none =>
      match d.message with
      | some m => pre ++ [Event.print ("Error accessing repo: " ++ m)]
      | none => pre

/-- The whole run of `verify_token.py`'s `main`. -/
def verifyMain (st : VerifyState) : List Event :=
  let (ev, r) := verifyLookup st
  match r with
  | none => ev
  | some tokOpt =>
    if truthy tokOpt then
      let t := tokOpt.getD ""
      let (evU, exitedU) := userCheckTrace st t
      ev ++ [Event.print ("Token found (length: " ++ toString t.length ++ ")"),
             Event.print (tokenTypeMsg t)] ++ evU ++
        (if exitedU then [] else repoCheckTrace st t)
    else
      ev ++ [Event.print ("Error: No token found in " ++ TOKEN_FILE ++
               " or GITHUB_TOKEN env var."), Event.exited 1]

/-- A concrete external world used to instantiate the theorems: no CLI
session, a readable token file, a set environment variable, logins succeed. -/
def baseState : UploadState :=
  { ghAuthOk := false, tokenFile := some "ghp_exampletoken1234\n", tokenFileReadOk := true,
    readErrMsg := "Permission denied", githubToken := some "ghp_envtoken9876",
    loginOk := fun _ => true, gitDirExists := true, repoExists := true,
    remoteHasOrigin := true, pullOk := true, pullStderr := "", pullStdout := "",
    noChanges := true, timestamp := "20260101_000000", pushOk := true, pushStderr := "" }

/-- C1: when `gh auth status` reports authenticated, `resolve` returns an
authenticated outcome with source `cli_session`, its trace contains no read of
the token file or of the environment variable, and the whole resolution is
identical for any two states differing only in the token file and the
environment variable. -/
theorem c1_cli_session_reads_nothing (st : UploadState) (f e : Option String)
    (h : st.ghAuthOk = true) :
    (resolve st).2 = .ok ⟨true, ⟨.cli_session, none⟩⟩ ∧
    Event.readTokenFile ∉ (resolve st).1 ∧
    Event.readEnv ∉ (resolve st).1 ∧
    resolve { st with tokenFile := f, githubToken := e } = resolve st := by
  simp [resolve, h]

theorem c1_cli_session_reads_nothing_witness :
    ({ baseState with ghAuthOk := true } : UploadState).ghAuthOk = true ∧
    ((resolve { baseState with ghAuthOk := true }).2 = .ok ⟨true, ⟨.cli_session, none⟩⟩ ∧
     Event.readTokenFile ∉ (resolve { baseState with ghAuthOk := true }).1 ∧
     Event.readEnv ∉ (resolve { baseState with ghAuthOk := true }).1 ∧
     resolve { { baseState with ghAuthOk := true } with tokenFile := none, githubToken := none } =
       resolve { baseState with ghAuthOk := true }) :=
  ⟨rfl, c1_cli_session_reads_nothing { baseState with ghAuthOk := true } none none rfl⟩

/-- C2: with no CLI session and an existing readable token file whose trimmed
content is non-empty, `resolve` attempts exactly one login, passing that
trimmed content, and never consults the environment variable. -/
theorem c2_file_login_skips_env (st : UploadState) (c : String)
    (h1 : st.ghAuthOk = false) (h2 : st.tokenFile = some c)
    (h3 : st.tokenFileReadOk = true) (h4 : pyStrip c ≠ "") :
    loginsOf (resolve st).1 = [pyStrip c] ∧
    Event.readEnv ∉ (resolve st).1 := by
  by_cases hl : st.loginOk (pyStrip c) = true <;>
    simp [resolve, h1, h2, h3, hl, loginsOf]

theorem c2_file_login_skips_env_witness :
    baseState.ghAuthOk = false ∧ baseState.tokenFile = some "ghp_exampletoken1234\n" ∧
    baseState.tokenFileReadOk = true ∧ pyStrip "ghp_exampletoken1234\n" ≠ "" ∧
    (loginsOf (resolve baseState).1 = [pyStrip "ghp_exampletoken1234\n"] ∧
     Event.readEnv ∉ (resolve baseState).1) :=
  ⟨rfl, rfl, rfl, by decide,
   c2_file_login_skips_env baseState "ghp_exampletoken1234\n" rfl rfl rfl (by decide)⟩

/-- C5: when a credential was successfully read (from the token file, or from
the environment variable) and the login attempt with it fails, resolution
terminates with exit status 1 after exactly that one login attempt, without
falling through to any other credential source. -/
theorem c5_login_failure_is_fatal (st : UploadState) (c e : String)
    (h1 : st.ghAuthOk = false) :
    (st.tokenFile = some c → st.tokenFileReadOk = true →
      st.loginOk (pyStrip c) = false →
      (resolve st).2 = .exited 1 ∧
      Event.exited 1 ∈ (resolve st).1 ∧
      loginsOf (resolve st).1 = [pyStrip c] ∧
      Event.readEnv ∉ (resolve st).1) ∧
    (st.tokenFile = none → st.githubToken = some e → e ≠ "" →
      st.loginOk e = false →
      (resolve st).2 = .exited 1 ∧
      Event.exited 1 ∈ (resolve st).1 ∧
      loginsOf (resolve st).1 = [e] ∧
      Event.readTokenFile ∉ (resolve st).1) := by
  constructor
  · intro h2 h3 h4
    simp [resolve, h1, h2, h3, h4, loginsOf]
  · intro h2 h3 h4 h5
    simp [resolve, h1, h2, h3, h4, h5, loginsOf, truthy]

theorem c5_login_failure_is_fatal_witness :
    ({ baseState with loginOk := fun _ => false } : UploadState).ghAuthOk = false ∧
    (({ baseState with loginOk := fun _ => false } : UploadState).tokenFile =
        some "ghp_exampletoken1234\n" →
      ({ baseState with loginOk := fun _ => false } : UploadState).tokenFileReadOk = true →
      ({ baseState with loginOk := fun _ => false } : UploadState).loginOk
          (pyStrip "ghp_exampletoken1234\n") = false →
      (resolve { baseState with loginOk := fun _ => false }).2 = .exited 1 ∧
      Event.exited 1 ∈ (resolve { baseState with loginOk := fun _ => false }).1 ∧
      loginsOf (resolve { baseState with loginOk := fun _ => false }).1 =
        [pyStrip "ghp_exampletoken1234\n"] ∧
      Event.readEnv ∉ (resolve { baseState with loginOk := fun _ => false }).1) ∧
    (({ baseState with loginOk := fun _ => false } : UploadState).tokenFile = none →
      ({ baseState with loginOk := fun _ => false } : UploadState).githubToken =
        some "ghp_envtoken9876" →
      "ghp_envtoken9876" ≠ "" →
      ({ baseState with loginOk := fun _ => false } : UploadState).loginOk
          "ghp_envtoken9876" = false →
      (resolve { baseState with loginOk := fun _ => false }).2 = .exited 1 ∧
      Event.exited 1 ∈ (resolve { baseState with loginOk := fun _ => false }).1 ∧
      loginsOf (resolve { baseState with loginOk := fun _ => false }).1 =
        ["ghp_envtoken9876"] ∧
      Event.readTokenFile ∉ (resolve { baseState with loginOk := fun _ => false }).1) :=
  ⟨rfl, c5_login_failure_is_fatal { baseState with loginOk := fun _ => false }
    "ghp_exampletoken1234\n" "ghp_envtoken9876" rfl⟩

/-- C6: with no CLI session, no token file and the environment variable unset,
the run is exactly the resolution prints followed by the remediation text
(naming `gh auth login` and the token file) and exit status 1; in particular
no git or repository command and no login attempt ever runs. -/
theorem c6_no_credential_found (st : UploadState) (cmd s : String)
    (h1 : st.ghAuthOk = false) (h2 : st.tokenFile = none)
    (h3 : st.githubToken = none) :
    mainTrace st =
      [Event.print "Checking GitHub authentication status...", Event.checkGhAuth,
       Event.print "Not logged in to GitHub CLI.", Event.readEnv,
       Event.print ("Error: Please login using \x27gh auth login\x27 or create a \x27" ++
         TOKEN_FILE ++ "\x27 file with your Personal Access Token."),
       Event.print "Note: GitHub no longer supports password authentication for CLI. You must use a token.",
       Event.print "Generate one at: https://github.com/settings/tokens",
       Event.exited 1] ∧
    Event.run cmd ∉ mainTrace st ∧
    Event.login s ∉ mainTrace st := by
  simp [mainTrace, resolve, h1, h2, h3, truthy]

theorem c6_no_credential_found_witness :
    ({ baseState with tokenFile := none, githubToken := none } : UploadState).ghAuthOk = false ∧
    ({ baseState with tokenFile := none, githubToken := none } : UploadState).tokenFile = none ∧
    ({ baseState with tokenFile := none, githubToken := none } : UploadState).githubToken = none ∧
    (mainTrace { baseState with tokenFile := none, githubToken := none } =
      [Event.print "Checking GitHub authentication status...", Event.checkGhAuth,
       Event.print "Not logged in to GitHub CLI.", Event.readEnv,
       Event.print ("Error: Please login using \x27gh auth login\x27 or create a \x27" ++
         TOKEN_FILE ++ "\x27 file with your Personal Access Token."),
       Event.print "Note: GitHub no longer supports password authentication for CLI. You must use a token.",
       Event.print "Generate one at: https://github.com/settings/tokens",
       Event.exited 1] ∧
     Event.run "git init" ∉ mainTrace { baseState with tokenFile := none, githubToken := none } ∧
     Event.login "ghp_envtoken9876" ∉
       mainTrace { baseState with tokenFile := none, githubToken := none }) :=
  ⟨rfl, rfl, rfl,
   c6_no_credential_found { baseState with tokenFile := none, githubToken := none }
     "git init" "ghp_envtoken9876" rfl rfl rfl⟩

/-- C10: when the token file exists and reads as whitespace-only, the upload
script's login resolution attempts login with the empty string and never
consults `GITHUB_TOKEN`, and the verification script reports that no token was
found and exits with status 1 without consulting `GITHUB_TOKEN` — even though
the environment variable is set. -/
theorem c10_empty_file_shadows_env (stU : UploadState) (stV : VerifyState) (cU cV : String)
    (h1 : stU.ghAuthOk = false) (h2 : stU.tokenFile = some cU)
    (h3 : stU.tokenFileReadOk = true) (h4 : pyStrip cU = "")
    (h5 : stV.tokenFile = some cV) (h6 : stV.tokenFileReadOk = true)
    (h7 : pyStrip cV = "") :
    (Event.login "" ∈ (resolve stU).1 ∧ Event.readEnv ∉ (resolve stU).1) ∧
    (verifyMain stV =
      [Event.readTokenFile,
       Event.print ("Error: No token found in " ++ TOKEN_FILE ++ " or GITHUB_TOKEN env var."),
       Event.exited 1] ∧
     Event.readEnv ∉ verifyMain stV) := by
  constructor
  · by_cases hl : stU.loginOk "" = true <;>
      simp [resolve, h1, h2, h3, h4, hl]
  · simp [verifyMain, verifyLookup, h5, h6, h7, truthy]

/-- A verification-script run with an empty (whitespace-only) token file and a
set environment variable, used to instantiate the theorems. -/
def vstC10 : VerifyState :=
  { tokenFile := some " \n", tokenFileReadOk := true,
    githubToken := some "ghp_envtoken9876", scopeLines := [],
    userCheck := Except.error "net", repoCheck := Except.error "net" }

theorem c10_empty_file_shadows_env_witness :
    ({ baseState with tokenFile := some " \n" } : UploadState).ghAuthOk = false ∧
    ({ baseState with tokenFile := some " \n" } : UploadState).tokenFile = some " \n" ∧
    ({ baseState with tokenFile := some " \n" } : UploadState).tokenFileReadOk = true ∧
    pyStrip " \n" = "" ∧
    vstC10.tokenFile = some " \n" ∧ vstC10.tokenFileReadOk = true ∧
    ((Event.login "" ∈ (resolve { baseState with tokenFile := some " \n" }).1 ∧
      Event.readEnv ∉ (resolve { baseState with tokenFile := some " \n" }).1) ∧
     (verifyMain vstC10 =
        [Event.readTokenFile,
         Event.print ("Error: No token found in " ++ TOKEN_FILE ++ " or GITHUB_TOKEN env var."),
         Event.exited 1] ∧
      Event.readEnv ∉ verifyMain vstC10)) :=
  ⟨rfl, rfl, rfl, by decide, rfl, rfl,
   c10_empty_file_shadows_env { baseState with tokenFile := some " \n" } vstC10
     " \n" " \n" rfl rfl rfl (by decide) rfl rfl (by decide)⟩

/-- A run refuting C3 as stated: no CLI session, the token file exists but
reading it fails, the environment variable is set and any login would
succeed. -/
def stC3 : UploadState :=
  { baseState with tokenFileReadOk := false, readErrMsg := "Permission denied" }

/-- C3 counterexample: the claim says a token-file read failure during
credential resolution is non-fatal and falls through to the environment
variable; in this run the script instead exits with status 1, never consults
`GITHUB_TOKEN` and never attempts the login the environment value would have
given. -/
theorem c3_counterexample :
    (resolve stC3).2 = .exited 1 ∧
    Event.exited 1 ∈ (resolve stC3).1 ∧
    Event.readEnv ∉ (resolve stC3).1 ∧
    Event.login "ghp_envtoken9876" ∉ (resolve stC3).1 ∧
    Event.print "Error reading token file: Permission denied" ∈ (resolve stC3).1 := by
  simp [resolve, stC3, baseState]

/-- C3 amended: a token-file read failure during login resolution is fatal —
the script prints the error and exits with status 1 without consulting the
environment variable or attempting any login; only in best-effort retrieval is
a read failure non-fatal, treated as "source absent" and falling through to
the environment variable (with no login attempted there either). -/
theorem c3_read_failure_semantics (st : UploadState) (c : String) (tok0 : Option String)
    (h1 : st.tokenFile = some c) (h2 : st.tokenFileReadOk = false)
    (h3 : truthy tok0 = false) :
    (st.ghAuthOk = false →
      (resolve st).2 = .exited 1 ∧
      Event.readEnv ∉ (resolve st).1 ∧
      loginsOf (resolve st).1 = []) ∧
    ((bestEffort tok0 st).2 =
      (if truthy st.githubToken then st.githubToken else tok0) ∧
     loginsOf (bestEffort tok0 st).1 = []) := by
  refine ⟨fun h0 => by simp [resolve, h0, h1, h2, loginsOf], ?_⟩
  by_cases he : truthy st.githubToken = true <;>
    simp [bestEffort, bestEffortFile, bestEffortEnv, h1, h2, h3, he, loginsOf]

theorem c3_read_failure_semantics_witness :
    stC3.tokenFile = some "ghp_exampletoken1234\n" ∧
    stC3.tokenFileReadOk = false ∧ truthy none = false ∧
    ((stC3.ghAuthOk = false →
      (resolve stC3).2 = .exited 1 ∧
      Event.readEnv ∉ (resolve stC3).1 ∧
      loginsOf (resolve stC3).1 = []) ∧
     ((bestEffort none stC3).2 =
       (if truthy stC3.githubToken then stC3.githubToken else none) ∧
      loginsOf (bestEffort none stC3).1 = [])) :=
  ⟨rfl, rfl, rfl,
   c3_read_failure_semantics stC3 "ghp_exampletoken1234\n" none rfl rfl rfl⟩

/-- A run refuting C8 as stated: the token file holds two lines. -/
def stC8 : UploadState :=
  { baseState with tokenFile := some "abc\nDEF" }

/-- C8 counterexample: with the token file containing `"abc\nDEF"`, the
credential passed to login is the whole content `"abc\nDEF"` — not the first
line `"abc"` — so content after the first line does become part of the
credential, refuting the claim. -/
theorem c8_counterexample :
    loginsOf (resolve stC8).1 = ["abc\nDEF"] ∧
    pyStrip "abc\nDEF" ≠ pyStrip (firstLine "abc\nDEF") ∧
    containsStr "DEF" (pyStrip "abc\nDEF") = true := by
  refine ⟨by simp [resolve, stC8, baseState, loginsOf] <;> decide, by decide, by decide⟩

/-- C8 amended: the credential obtained from the token file is the file's
entire content trimmed of surrounding whitespace (both scripts run
`f.read().strip()`); it equals the trimmed first line only when nothing
follows the first line, and it is exactly this whole-content value that is
passed to login and carried into the verification script's API calls. -/
theorem c8_credential_is_whole_file_stripped (stU : UploadState) (stV : VerifyState)
    (c : String)
    (h1 : stU.ghAuthOk = false) (h2 : stU.tokenFile = some c)
    (h3 : stU.tokenFileReadOk = true)
    (h4 : stV.tokenFile = some c) (h5 : stV.tokenFileReadOk = true) :
    loginsOf (resolve stU).1 = [pyStrip c] ∧
    (verifyLookup stV).2 = some (some (pyStrip c)) := by
  constructor
  · by_cases hl : stU.loginOk (pyStrip c) = true <;>
      simp [resolve, h1, h2, h3, hl, loginsOf]
  · simp [verifyLookup, h4, h5]

theorem c8_credential_is_whole_file_stripped_witness :
    stC8.ghAuthOk = false ∧ stC8.tokenFile = some "abc\nDEF" ∧
    stC8.tokenFileReadOk = true ∧
    ({ vstC10 with tokenFile := some "abc\nDEF" } : VerifyState).tokenFile = some "abc\nDEF" ∧
    ({ vstC10 with tokenFile := some "abc\nDEF" } : VerifyState).tokenFileReadOk = true ∧
    (loginsOf (resolve stC8).1 = [pyStrip "abc\nDEF"] ∧
     (verifyLookup { vstC10 with tokenFile := some "abc\nDEF" }).2 =
       some (some (pyStrip "abc\nDEF"))) :=
  ⟨rfl, rfl, rfl, rfl, rfl,
   c8_credential_is_whole_file_stripped stC8 { vstC10 with tokenFile := some "abc\nDEF" }
     "abc\nDEF" rfl rfl rfl rfl rfl⟩

/-- True when the user-identity check saw a well-formed response without a
`"login"` key — the explicit authentication failure of `verify_token.py`. -/
def authFailed (st : VerifyState) : Bool :=
  match st.userCheck with
  | .ok d => d.login.isNone
  | .error _ => false

/-- The repository-metadata check never terminates the process. -/
theorem exited_notin_repoCheckTrace (st : VerifyState) (tok : String) (n : Nat) :
    Event.exited n ∉ repoCheckTrace st tok := by
  unfold repoCheckTrace
  rcases h : st.repoCheck with e | d
  · simp [h]
  · rcases hp : d.permissions with _ | p
    · rcases hm : d.message with _ | m <;> simp [h, hp, hm]
    · simp [h, hp]

/-- The repository-metadata check always prints its header. -/
theorem repoHeader_mem_repoCheckTrace (st : VerifyState) (tok : String) :
    Event.print ("\n--- Checking Permissions for " ++ FULL_REPO ++ " ---") ∈
      repoCheckTrace st tok := by
  unfold repoCheckTrace
  rcases h : st.repoCheck with e | d
  · simp [h]
  · rcases hp : d.permissions with _ | p
    · rcases hm : d.message with _ | m <;> simp [h, hp, hm]
    · simp [h, hp]

/-- A repository-metadata exception is reported. -/
theorem repoErr_mem_repoCheckTrace (st : VerifyState) (tok : String) (e : String)
    (h : st.repoCheck = Except.error e) :
    Event.print ("Error checking repo: " ++ e) ∈ repoCheckTrace st tok := by
  simp [repoCheckTrace, h]

/-- C9: in the verification script, with a token found, an exception during
the user-identity check (network or API error) is reported and the run still
reaches the repository-metadata check, with no process exit anywhere; an
exception during the repository-metadata check is likewise reported and
non-fatal; and the only fatal condition among the checks is the explicit
authentication failure, which exits with status 1. -/
theorem c9_network_errors_nonfatal (st : VerifyState) (c : String) (e1 e2 : String)
    (d : RespUser) (l : String) (n : Nat)
    (h1 : st.tokenFile = some c) (h2 : st.tokenFileReadOk = true)
    (h3 : pyStrip c ≠ "") :
    (st.userCheck = Except.error e1 →
      Event.print ("Error checking user: " ++ e1) ∈ verifyMain st ∧
      Event.print ("\n--- Checking Permissions for " ++ FULL_REPO ++ " ---") ∈ verifyMain st ∧
      Event.exited n ∉ verifyMain st) ∧
    (st.userCheck = Except.ok d → d.login = some l → st.repoCheck = Except.error e2 →
      Event.print ("Error checking repo: " ++ e2) ∈ verifyMain st ∧
      Event.exited n ∉ verifyMain st) ∧
    (Event.exited n ∈ verifyMain st → n = 1 ∧ authFailed st = true) := by
  have hts : truthy (some (pyStrip c)) = true := by
    simp [truthy]
    exact h3
  refine ⟨?_, ?_, ?_⟩
  · intro hu
    refine ⟨?_, ?_, ?_⟩ <;>
      simp [verifyMain, verifyLookup, h1, h2, hts, userCheckTrace, hu,
            repoHeader_mem_repoCheckTrace, exited_notin_repoCheckTrace]
  · intro hu hl hr
    constructor
    · simp [verifyMain, verifyLookup, h1, h2, hts, userCheckTrace, hu, hl,
            repoErr_mem_repoCheckTrace st (pyStrip c) e2 hr]
    · simp [verifyMain, verifyLookup, h1, h2, hts, userCheckTrace, hu, hl,
            exited_notin_repoCheckTrace]
  · intro hn
    rcases hu : st.userCheck with eu | d2
    · exfalso
      simp [verifyMain, verifyLookup, h1, h2, hts, userCheckTrace, hu,
            exited_notin_repoCheckTrace] at hn
    · rcases hl2 : d2.login with _ | l2
      · have hn1 : n = 1 := by
          simp [verifyMain, verifyLookup, h1, h2, hts, userCheckTrace, hu, hl2] at hn
          exact hn
        exact ⟨hn1, by simp [authFailed, hu, hl2]⟩
      · exfalso
        simp [verifyMain, verifyLookup, h1, h2, hts, userCheckTrace, hu, hl2,
              exited_notin_repoCheckTrace] at hn

/-- A verification-script run whose user-identity check raises a network
error, used to instantiate the theorems. -/
def vstC9 : VerifyState :=
  { tokenFile := some "ghp_exampletoken1234\n", tokenFileReadOk := true,
    githubToken := none, scopeLines := [],
    userCheck := Except.error "timeout", repoCheck := Except.error "timeout2" }

theorem c9_network_errors_nonfatal_witness :
    vstC9.tokenFile = some "ghp_exampletoken1234\n" ∧
    vstC9.tokenFileReadOk = true ∧ pyStrip "ghp_exampletoken1234\n" ≠ "" ∧
    ((vstC9.userCheck = Except.error "timeout" →
      Event.print ("Error checking user: " ++ "timeout") ∈ verifyMain vstC9 ∧
      Event.print ("\n--- Checking Permissions for " ++ FULL_REPO ++ " ---") ∈ verifyMain vstC9 ∧
      Event.exited 0 ∉ verifyMain vstC9) ∧
     (vstC9.userCheck = Except.ok ⟨some "lev", "raw"⟩ → (⟨some "lev", "raw"⟩ : RespUser).login = some "lev" →
      vstC9.repoCheck = Except.error "timeout2" →
      Event.print ("Error checking repo: " ++ "timeout2") ∈ verifyMain vstC9 ∧
      Event.exited 0 ∉ verifyMain vstC9) ∧
     (Event.exited 0 ∈ verifyMain vstC9 → 0 = 1 ∧ authFailed vstC9 = true)) :=
  ⟨rfl, rfl, by decide,
   c9_network_errors_nonfatal vstC9 "ghp_exampletoken1234\n" "timeout" "timeout2"
     ⟨some "lev", "raw"⟩ "lev" 0 rfl rfl (by decide)⟩

/-- Best-effort retrieval never attempts a login. -/
theorem loginsOf_bestEffort (tok0 : Option String) (st : UploadState) :
    loginsOf (bestEffort tok0 st).1 = [] := by
  have hfile : loginsOf (bestEffortFile tok0 st).1 = [] := by
    unfold bestEffortFile
    split
    · simp [loginsOf]
    · split
      · split <;> simp [loginsOf]
      · simp [loginsOf]
  unfold bestEffort bestEffortEnv
  split
  · exact hfile
  · split <;> simp [loginsOf, List.filterMap_append] <;>
      simpa [loginsOf] using hfile

/-- Entering best-effort retrieval with a truthy token leaves it unchanged. -/
theorem bestEffort_truthy (tok0 : Option String) (st : UploadState)
    (h : truthy tok0 = true) :
    (bestEffort tok0 st).2 = tok0 := by
  simp [bestEffort, bestEffortFile, bestEffortEnv, h]

theorem truthy_none_eq : truthy none = false := rfl

theorem truthy_some_eq (v : String) : truthy (some v) = !(v == "") := rfl

/-- The value kept by the first best-effort statement when entered falsy. -/
theorem bestEffortFile_falsy (tok0 : Option String) (st : UploadState)
    (h : truthy tok0 = false) :
    (bestEffortFile tok0 st).2 =
      (match st.tokenFile with
       | some c => if st.tokenFileReadOk then some (pyStrip c) else tok0
       | none => tok0) := by
  unfold bestEffortFile
  rcases hf : st.tokenFile with _ | c
  · simp [h, hf]
  · simp only [h, Bool.false_eq_true, if_false, hf]
    split <;> simp

/-- The value kept by the second best-effort statement. -/
theorem bestEffortEnv_val (p : List Event × Option String) (st : UploadState) :
    (bestEffortEnv p st).2 =
      (if truthy p.2 then p.2
       else if truthy st.githubToken then st.githubToken else p.2) := by
  unfold bestEffortEnv
  split
  · simp [*]
  · split <;> simp [*]

/-- Entering best-effort retrieval with a falsy token yields, up to
truthiness-normalisation, exactly the spec's file-then-environment value. -/
theorem bestEffort_falsy (tok0 : Option String) (st : UploadState)
    (h : truthy tok0 = false) :
    normalizeTok (bestEffort tok0 st).2 = bestEffortSpec st := by
  unfold bestEffort
  rw [bestEffortEnv_val, bestEffortFile_falsy tok0 st h]
  rcases hf : st.tokenFile with _ | c
  · by_cases he : truthy st.githubToken = true <;>
      simp [h, he, normalizeTok, bestEffortSpec, hf]
  · by_cases hr : st.tokenFileReadOk = true
    · by_cases hc : pyStrip c = ""
      · by_cases he : truthy st.githubToken = true <;>
          simp [h, hr, hc, he, normalizeTok, bestEffortSpec, hf, truthy_some_eq]
      · simp [h, hr, hc, normalizeTok, bestEffortSpec, hf, truthy_some_eq]
    · by_cases he : truthy st.githubToken = true <;>
        simp [h, hr, he, normalizeTok, bestEffortSpec, hf]

/-- The URL section builds the authenticated URL exactly from the normalised
token. -/
theorem urlSection_normalize (t : Option String) :
    (urlSection t).2 = Option.map mkAuthUrl (normalizeTok t) := by
  rcases t with _ | v
  · simp [urlSection, normalizeTok, truthy]
  · by_cases hv : v = "" <;> simp [urlSection, normalizeTok, truthy, hv]

/-- C4: in every run that reaches URL construction, the token used there is —
up to truthiness-normalisation — the token-file value when the file is
present, readable and trims non-empty, otherwise the environment variable's
value when set and non-empty, otherwise none; this holds whatever the CLI
session state was, the retrieval itself attempts no login, and the
authenticated URL embeds exactly that normalised value. -/
theorem c4_bestEffort_priority (st : UploadState) (t tok0 : Option String)
    (h : resolvedUrlToken st = some t) :
    normalizeTok t = bestEffortSpec st ∧
    loginsOf (bestEffort tok0 st).1 = [] ∧
    (urlSection t).2 = Option.map mkAuthUrl (normalizeTok t) := by
  refine ⟨?_, loginsOf_bestEffort tok0 st, urlSection_normalize t⟩
  unfold resolvedUrlToken at h
  by_cases hg : st.ghAuthOk = true
  · simp [resolve, hg] at h
    rw [← h]
    exact bestEffort_falsy none st rfl
  · rcases hf : st.tokenFile with _ | c
    · rcases hgt : st.githubToken with _ | e
      · simp [resolve, hg, hf, hgt, truthy] at h
      · by_cases hev : e = ""
        · simp [resolve, hg, hf, hgt, hev, truthy] at h
        · by_cases hl : st.loginOk e = true
          · simp [resolve, hg, hf, hgt, hev, truthy, hl] at h
            rw [← h, bestEffort_truthy _ _ (by simp [truthy, hev])]
            simp [bestEffortSpec, hf, hgt, normalizeTok, truthy, hev]
          · simp [resolve, hg, hf, hgt, hev, truthy, hl] at h
    · by_cases hr : st.tokenFileReadOk = true
      · by_cases hl : st.loginOk (pyStrip c) = true
        · simp [resolve, hg, hf, hr, hl] at h
          by_cases hc : pyStrip c = ""
          · rw [← h]
            exact bestEffort_falsy _ st (by simp [truthy, hc])
          · rw [← h, bestEffort_truthy _ _ (by simp [truthy, hc])]
            simp [bestEffortSpec, hf, hr, hc, normalizeTok, truthy]
        · simp [resolve, hg, hf, hr, hl] at h
      · simp [resolve, hg, hf, hr] at h

theorem c4_bestEffort_priority_witness :
    resolvedUrlToken { baseState with ghAuthOk := true } =
      some (some (pyStrip "ghp_exampletoken1234\n")) ∧
    (normalizeTok (some (pyStrip "ghp_exampletoken1234\n")) =
       bestEffortSpec { baseState with ghAuthOk := true } ∧
     loginsOf (bestEffort none { baseState with ghAuthOk := true }).1 = [] ∧
     (urlSection (some (pyStrip "ghp_exampletoken1234\n"))).2 =
       Option.map mkAuthUrl (normalizeTok (some (pyStrip "ghp_exampletoken1234\n")))) :=
  ⟨by decide,
   c4_bestEffort_priority { baseState with ghAuthOk := true }
     (some (pyStrip "ghp_exampletoken1234\n")) none (by decide)⟩

/-- A run refuting C7 as stated: the token file holds the four-character
credential `"abcd"`, there is no CLI session, and login succeeds. -/
def stC7 : UploadState :=
  { baseState with tokenFile := some "abcd", githubToken := none }

/-- C7 counterexample: in this run the credential is `"abcd"` (it is exactly
what is piped to login), and the printed line
`"Using authenticated URL with token ending in ...abcd"` contains the
credential in full — the displayed last-4-character suffix of a 4-character
credential is the whole credential. -/
theorem c7_counterexample :
    loginsOf (mainTrace stC7) = ["abcd"] ∧
    Event.print "Using authenticated URL with token ending in ...abcd" ∈ mainTrace stC7 ∧
    containsStr "abcd" "Using authenticated URL with token ending in ...abcd" = true := by
  refine ⟨?_, ?_, by decide⟩ <;> decide

theorem printsOf_nil : printsOf [] = [] := rfl

theorem printsOf_append (a b : List Event) :
    printsOf (a ++ b) = printsOf a ++ printsOf b := by
  simp [printsOf]

theorem printsOf_cons_print (s : String) (l : List Event) :
    printsOf (Event.print s :: l) = s :: printsOf l := rfl

theorem printsOf_cons_checkGhAuth (l : List Event) :
    printsOf (Event.checkGhAuth :: l) = printsOf l := rfl

theorem printsOf_cons_readTokenFile (l : List Event) :
    printsOf (Event.readTokenFile :: l) = printsOf l := rfl

theorem printsOf_cons_readEnv (l : List Event) :
    printsOf (Event.readEnv :: l) = printsOf l := rfl

theorem printsOf_cons_login (s : String) (l : List Event) :
    printsOf (Event.login s :: l) = printsOf l := rfl

theorem printsOf_cons_exited (n : Nat) (l : List Event) :
    printsOf (Event.exited n :: l) = printsOf l := rfl

theorem printsOf_cons_run (s : String) (l : List Event) :
    printsOf (Event.run s :: l) = printsOf l := rfl

/-- The printed lines of the post-resolution part of `upload_meetings.py`,
as a function of the run's state: none of them depends on the authenticated
URL (and hence on the credential), which enters only spawned git commands. -/
def restPrints (s : UploadState) : List String :=
  (if s.gitDirExists then [] else ["Initializing git repository..."]) ++
  ["Checking if repository " ++ FULL_REPO ++ " exists..."] ++
  (if s.repoExists then
     "Repository exists." :: (if s.remoteHasOrigin then [] else ["Adding remote origin..."])
   else ["Repository does not exist. Creating it..."]) ++
  ["Pulling latest changes..."] ++
  (if s.pullOk then ["Pull completed (success or no changes)."]
   else ["Pull warning/error: " ++ s.pullStderr, "Pull stdout: " ++ s.pullStdout]) ++
  ["Adding files..."] ++
  (if s.noChanges then ["No changes to commit."]
   else ["Committing changes...", "Pushing to GitHub..."] ++
     (if s.pushOk then
        ["Done!",
         "Successfully uploaded files to: https://github.com/" ++ FULL_REPO ++ "/blob/main/",
         "Check the repository for the latest files."]
      else ["Error pushing to GitHub: " ++ s.pushStderr]))

/-- The prints of the post-resolution part never depend on the URL argument. -/
theorem restOfMain_prints (s : UploadState) (u : Option String) :
    printsOf (restOfMain s u) = restPrints s := by
  unfold restOfMain restPrints
  by_cases b1 : s.gitDirExists = true <;>
  by_cases b2 : s.repoExists = true <;>
  by_cases b3 : s.remoteHasOrigin = true <;>
  by_cases b4 : s.pullOk = true <;>
  by_cases b5 : s.noChanges = true <;>
  by_cases b6 : s.pushOk = true <;>
    simp [b1, b2, b3, b4, b5, b6, printsOf]

/-- The post-resolution prints ignore the credential-bearing fields. -/
theorem restPrints_eta (st : UploadState) (b1 b2 : Bool) (f : Option String) :
    restPrints { st with ghAuthOk := b1, tokenFile := f, tokenFileReadOk := b2 } =
      restPrints st := by
  simp [restPrints]

/-- C7 amended: a credential can appear in full in printed output exactly
when it coincides with the rendered last-4-character suffix (e.g., a
credential of at most 4 characters, as in the counterexample); what holds is
that the program's printed output depends on the token-file credential only
through its last-4-character suffix, whether it trims empty, and the login
result: two runs whose token files agree on those (all else equal) print
exactly the same lines, so at most the fixed-length suffix of the credential
is ever incorporated into diagnostics (output echoed verbatim from spawned
git processes is an input in this model and is held fixed). -/
theorem c7_prints_depend_only_on_suffix (st : UploadState) (c1 c2 : String)
    (h1 : st.tokenFile = some c1)
    (h2 : pyStrip c1 ≠ "") (h3 : pyStrip c2 ≠ "")
    (h4 : last4 (pyStrip c1) = last4 (pyStrip c2))
    (h5 : st.loginOk (pyStrip c1) = st.loginOk (pyStrip c2)) :
    printsOf (mainTrace { st with tokenFile := some c2 }) = printsOf (mainTrace st) := by
  by_cases hg : st.ghAuthOk = true
  · by_cases hr : st.tokenFileReadOk = true
    · simp [mainTrace, resolve, hg, hr, h1, bestEffort, bestEffortFile, bestEffortEnv,
            truthy_none_eq, truthy_some_eq, h2, h3, urlSection, printsOf_append,
            printsOf_cons_print, printsOf_cons_checkGhAuth, printsOf_cons_readTokenFile,
            printsOf_cons_readEnv, printsOf_cons_login, printsOf_cons_exited,
            printsOf_cons_run, printsOf_nil, restOfMain_prints, restPrints_eta, h4]
    · simp [mainTrace, resolve, hg, hr, h1, bestEffort, bestEffortFile, bestEffortEnv,
            truthy_none_eq, truthy_some_eq, urlSection, printsOf_append,
            printsOf_cons_print, printsOf_cons_checkGhAuth, printsOf_cons_readTokenFile,
            printsOf_cons_readEnv, printsOf_cons_login, printsOf_cons_exited,
            printsOf_cons_run, printsOf_nil, restOfMain_prints, restPrints_eta]
  · by_cases hr : st.tokenFileReadOk = true
    · by_cases hl : st.loginOk (pyStrip c1) = true
      · have hl2 : st.loginOk (pyStrip c2) = true := by rw [← h5]; exact hl
        simp [mainTrace, resolve, hg, hr, h1, hl, hl2, bestEffort, bestEffortFile,
              bestEffortEnv, truthy_none_eq, truthy_some_eq, h2, h3, urlSection,
              printsOf_append, printsOf_cons_print, printsOf_cons_checkGhAuth,
              printsOf_cons_readTokenFile, printsOf_cons_readEnv, printsOf_cons_login,
              printsOf_cons_exited, printsOf_cons_run, printsOf_nil,
              restOfMain_prints, restPrints_eta, h4]
      · have hl2 : ¬st.loginOk (pyStrip c2) = true := by rw [← h5]; exact hl
        simp [mainTrace, resolve, hg, hr, h1, hl, hl2, printsOf_append,
              printsOf_cons_print, printsOf_cons_checkGhAuth, printsOf_cons_readTokenFile,
              printsOf_cons_readEnv, printsOf_cons_login, printsOf_cons_exited,
              printsOf_cons_run, printsOf_nil]
    · simp [mainTrace, resolve, hg, hr, h1, printsOf_append, printsOf_cons_print,
            printsOf_cons_checkGhAuth, printsOf_cons_readTokenFile, printsOf_cons_readEnv,
            printsOf_cons_login, printsOf_cons_exited, printsOf_cons_run, printsOf_nil]

theorem c7_prints_depend_only_on_suffix_witness :
    baseState.tokenFile = some "ghp_exampletoken1234\n" ∧
    pyStrip "ghp_exampletoken1234\n" ≠ "" ∧
    pyStrip "ghp_othertoken1234" ≠ "" ∧
    last4 (pyStrip "ghp_exampletoken1234\n") = last4 (pyStrip "ghp_othertoken1234") ∧
    baseState.loginOk (pyStrip "ghp_exampletoken1234\n") =
      baseState.loginOk (pyStrip "ghp_othertoken1234") ∧
    printsOf (mainTrace { baseState with tokenFile := some "ghp_othertoken1234" }) =
      printsOf (mainTrace baseState) :=
  ⟨rfl, by decide, by decide, by decide, rfl,
   c7_prints_depend_only_on_suffix baseState "ghp_exampletoken1234\n" "ghp_othertoken1234"
     rfl (by decide) (by decide) (by decide) rfl⟩
